import Mathlib

/-! Verification development for the AgentCore example scripts
(`01_create_strands_agent.py`, `02_deploying_agent_to_agentcore_runtime.py`,
`agent.py`, `cleanup.py`, `deploy.py`, `test_invoke.py`).

Python floats are modelled as exact rationals (`ℚ`); on every input used by
the claims below the Python double computation is exact, so the rational
model coincides with it.  Python strings are modelled as Lean `String`s,
with the byte-level operations (`startswith`, `in`, `split`) modelled on
the underlying character list.
-/

/-! Section: character-list string primitives.

`isPre p s` models Python `s.startswith(p)`; `containsSub n h` models
Python `n in h` (substring containment); `splitOnChar` models
`s.split(c)` for a single-character separator. -/

/-- Model of Python `s.startswith(p)` on character lists. -/
def isPre : List Char → List Char → Bool
  | [], _ => true
  | _ :: _, [] => false
  | a :: as, b :: bs => a == b && isPre as bs

/-- Model of Python `needle in hay` (substring test) on character lists. -/
def containsSub (needle : List Char) : List Char → Bool
  | [] => isPre needle []
  | c :: rest => isPre needle (c :: rest) || containsSub needle rest

/-- Model of Python `s.split(sep)` for a one-character separator. -/
def splitOnChar (sep : Char) : List Char → List (List Char)
  | [] => [[]]
  | c :: rest =>
      let r := splitOnChar sep rest
      if c == sep then [] :: r
      else (c :: r.headD []) :: r.tail


/-! Section: fixed-rate currency conversion (`convert_currency` in
`agent.py` and `01_create_strands_agent.py`) -/

/-- The `rates` dictionary of `convert_currency`, with the float literals
`1.0`, `1.35`, `0.92`, `149.50` as exact rationals. -/
def rates : List (String × ℚ) := [("USD", 1), ("SGD", 27/20), ("EUR", 23/25), ("JPY", 299/2)]

/-- Dictionary lookup `rates[c]` (`none` models `c not in rates`). -/
def rateOf (c : String) : Option ℚ := rates.lookup c

/-- Floor of a rational, computed from its normalised fraction. -/
def ratFloor (q : ℚ) : ℤ := q.num.fdiv q.den

/-- Round a rational to the nearest integer, ties to even, as Python's
fixed-point formatting does on the exact value of the double. -/
def roundHalfEven (q : ℚ) : ℤ :=
  let f := ratFloor q
  if q - f < 1/2 then f
  else if (1:ℚ)/2 < q - f then f + 1
  else if f % 2 = 0 then f else f + 1

/-- Two-digit zero-padded rendering of `n` (expected `0 ≤ n < 100`). -/
def pad2 (n : ℤ) : String := if n < 10 then "0" ++ toString n else toString n

/-- Model of Python's `f"{x:.2f}"` on the exact value of the float. -/
def formatFixed2 (q : ℚ) : String :=
  let n := roundHalfEven (|q| * 100)
  let sign := if q < 0 then "-" else ""
  sign ++ toString (n / 100) ++ "." ++ pad2 (n % 100)

/-- Model of Python's `f"{x}"` for a float `x`; the scripts only ever
format integral amounts, rendered by Python as `"<n>.0"`.  Non-integral
rationals are rendered as fractions (never reached by the claims). -/
def floatRepr (q : ℚ) : String :=
  if q.den = 1 then toString q.num ++ ".0"
  else toString q.num ++ "/" ++ toString q.den

/-- Definition of `convert_currency(amount, from_currency, to_currency)` from `agent.py`
(lines 39–56) and `01_create_strands_agent.py` (lines 13–30). -/
def convert_currency (amount : ℚ) (from_currency to_currency : String) : String :=
  match rateOf from_currency, rateOf to_currency with
  | some rf, some rt =>
      let usd_amount := amount / rf
      let result := usd_amount * rt
      floatRepr amount ++ " " ++ from_currency ++ " = " ++
        formatFixed2 result ++ " " ++ to_currency
  | _, _ => "Currency not supported. Use USD, SGD, EUR, or JPY"

/-- The supported currency codes (the keys of `rates`). -/
def supportedCurrencies : List String := rates.map (·.1)


/-! Section: streamed-response decoding (`02_deploying_agent_to_agentcore_runtime.py`,
lines 96–105) -/

/-- One iteration of the streaming decode loop: skip empty lines, and for a
line starting with `"data: "` strip the 6-character marker and append the
rest to `content`; any other line is discarded. -/
def streamStep (content : List String) (line : String) : List String :=
  if line ≠ "" then
    if isPre "data: ".data line.data then content ++ [line.drop 6] else content
  else content

/-- The `content` list accumulated by the streaming decode loop. -/
def streamContent (lines : List String) : List String := lines.foldl streamStep []

/-- Model of `"\n".join(content)` at the end of the streaming branch. -/
def decodeStreamed (lines : List String) : String :=
  String.intercalate "\n" (streamContent lines)


/-! Section: deployment status polling (`02_deploying_agent_to_agentcore_runtime.py`,
lines 63–72)

The provider is modelled as the sequence of statuses it reports:
`provider k` is the status returned by the `k`-th call to
`agentcore_runtime.status()` (the initial query is call `0`).  The
unbounded `while` loop is given step-indexed semantics by a fuel
parameter: `none` means the loop is still running after consuming the
fuel. -/

/-- The list `end_status = ['READY', 'CREATE_FAILED', 'DELETE_FAILED', 'UPDATE_FAILED']`. -/
def end_status : List String := ["READY", "CREATE_FAILED", "DELETE_FAILED", "UPDATE_FAILED"]

/-- The `while status not in end_status` loop, carrying the index `i` of
the query that produced the current `status`.  On termination it returns
the final status together with the number of sleep-and-requery cycles
performed after the initial query. -/
def pollStatusAux (provider : ℕ → String) : ℕ → ℕ → String → Option (String × ℕ)
  | fuel, i, status =>
    if status ∈ end_status then some (status, i)
    else
      match fuel with
      | 0 => none
      | f + 1 => pollStatusAux provider f (i + 1) (provider (i + 1))

/-- The whole polling phase: initial `status()` query followed by the loop. -/
def pollStatus (provider : ℕ → String) (fuel : ℕ) : Option (String × ℕ) :=
  pollStatusAux provider fuel 0 (provider 0)

/-- The fake provider of the spec's test: reports CREATING, CREATING, READY. -/
def fakeProvider : ℕ → String
  | 0 => "CREATING"
  | 1 => "CREATING"
  | _ => "READY"

/-! Section: invocation response decoding (`test_invoke.py` lines 67–86 and the
content-type branch of `02_deploying_agent_to_agentcore_runtime.py`) -/

/-- Outcome of the buffered response branch of `test_invoke.py`. -/
inductive BufferedReport (α : Type) where
  | emptyResponse : BufferedReport α
  | parsedJson : α → BufferedReport α
  | plainText : String → BufferedReport α
deriving DecidableEq

/-- The buffered decode of `test_invoke.py`: read the whole payload; if
non-empty, decode as UTF-8 and try `json.loads`, falling back to the plain
decoded text on `JSONDecodeError`; otherwise report an empty response.
`json.loads` (Python standard library, external to this repository) is
passed in as an opaque parser returning `none` on parse failure. -/
def decodeBufferedResponse {α : Type} (jsonParse : String → Option α)
    (full_response : String) : BufferedReport α :=
  if full_response ≠ "" then
    match jsonParse full_response with
    | some v => BufferedReport.parsedJson v
    | none => BufferedReport.plainText full_response
  else BufferedReport.emptyResponse

/-- Model of `boto3_response.get("contentType", "")`. -/
def contentTypeOf (ct : Option String) : String := ct.getD ""

/-- The mode auto-detection
`if "text/event-stream" in boto3_response.get("contentType", "")`. -/
def isStreamedResponse (ct : Option String) : Bool :=
  containsSub "text/event-stream".data (contentTypeOf ct).data

/-! Section: teardown and verification (`cleanup.py`)

The cloud is modelled as the lists of live agent runtimes and ECR
repositories in the region; the local filesystem as the finite set of
file names present in the working directory.  Each provider call that can
raise is modelled as returning `Option` (`none` = exception), with a
`Faults` record injecting transient failures on top of the state-derived
ones (deleting an absent resource raises a not-found error). -/

/-- A deployed runtime as reported by `list_agent_runtimes`: its
`agentRuntimeName`, `agentRuntimeId` and the container URI found at
`agentRuntimeArtifact.containerConfiguration.containerUri` (`""` when
absent, matching the `.get(..., '')` chain). -/
structure RuntimeInfo where
  name : String
  id : String
  containerUri : String
deriving DecidableEq

/-- Live resources in the region. -/
structure CloudState where
  runtimes : List RuntimeInfo
  repos : List String
deriving DecidableEq

/-- Transient provider failures injected into one cleanup run: whether
each provider call raises an exception when reached. -/
structure Faults where
  launchFails : Bool
  listFails : Bool
  deleteRuntimeFails : Bool
  deleteRepoFails : Bool
deriving DecidableEq

def noFaults : Faults := ⟨false, false, false, false⟩

/-- Model of `delete_agent_runtime(agentRuntimeId=id)`: raises (`none`) on an
injected fault or when no runtime has this id (not-found error). -/
def deleteRuntimeCall (fault : Bool) (c : CloudState) (id : String) : Option CloudState :=
  if fault then none
  else if c.runtimes.any (fun r => r.id == id) then
    some { c with runtimes := c.runtimes.filter (fun r => !(r.id == id)) }
  else none

/-- Model of `ecr_client.delete_repository(repositoryName=repo, force=True)`:
raises (`none`) on an injected fault or when the repository is absent. -/
def deleteRepoCall (fault : Bool) (c : CloudState) (repo : String) : Option CloudState :=
  if fault then none
  else if c.repos.contains repo then
    some { c with repos := c.repos.filter (fun r => !(r == repo)) }
  else none

/-- Python `s.split(sep)` for a one-character separator, on `String`s. -/
def pySplit (s : String) (sep : Char) : List String :=
  (splitOnChar sep s.data).map (fun l => ⟨l⟩)

/-- The fixed `local_files` list of both cleanup entry points. -/
def local_files : List String :=
  [".bedrock_agentcore.yaml", "Dockerfile", ".dockerignore", "agent_config.json"]

/-- The local-file cleanup loop: for each name in `local_files`, if the
file exists, unlink it; otherwise skip it. -/
def removeLocalFiles (fs : Finset String) : Finset String :=
  local_files.foldl (fun acc file => if file ∈ acc then acc.erase file else acc) fs

/-- The world a cleanup run acts on.  `configAgentName` is the agent name
obtained by parsing `.bedrock_agentcore.yaml`
(`agents[default_agent].get('name', default_agent)`); it is meaningful
only while that file is in `files`. -/
structure World where
  cloud : CloudState
  files : Finset String
  configAgentName : String
deriving DecidableEq

/-- Which steps of a cleanup run were reached, and the non-fatal errors
printed along the way. -/
structure CleanupTrace where
  runtimeDeleteAttempted : Bool
  repoDeleteAttempted : Bool
  filesStepRun : Bool
  warnings : List String
deriving DecidableEq

def emptyTrace : CleanupTrace := ⟨false, false, false, []⟩

/-- The fields of `launch_result` used by `cleanup_from_launch_result`. -/
structure LaunchResult where
  ecr_uri : String
  agent_id : String
deriving DecidableEq

/-- Model of `cleanup_from_launch_result()` (`cleanup.py` lines 39–92).  Returns
the Python return value, the world after the run, and the trace.
`runtime.launch()` raising is modelled by `f.launchFails`; the
`launch_result.ecr_uri.split('/')[1]` in the progress print raises
`IndexError` (caught only by the outer handler) when the URI has no `/`.
The runtime- and repository-deletion steps are wrapped in their own
`try/except` blocks, so their errors become warnings. -/
def cleanup_from_launch_result (f : Faults) (lr : LaunchResult) (w : World) :
    Bool × World × CleanupTrace :=
  if f.launchFails then (false, w, emptyTrace)
  else
    match (pySplit lr.ecr_uri '/').get? 1 with
    | none => (false, w, emptyTrace)
    | some repoName =>
        let step1 :=
          match deleteRuntimeCall f.deleteRuntimeFails w.cloud lr.agent_id with
          | some c => (c, ([] : List String))
          | none => (w.cloud, ["Error deleting runtime"])
        let step2 :=
          match deleteRepoCall f.deleteRepoFails step1.1 repoName with
          | some c => (c, ([] : List String))
          | none => (step1.1, ["Error deleting ECR repository"])
        (true, ⟨step2.1, removeLocalFiles w.files, w.configAgentName⟩,
          ⟨true, true, true, step1.2 ++ step2.2⟩)

/-- Model of `cleanup_by_config()` (`cleanup.py` lines 95–204).  The body follows
the source's control flow: a missing config file returns `False`
immediately; the runtime lookup/deletion and the URI split sit in one big
`try` whose handler returns `False`, so an exception there skips both the
repository deletion and the local-file cleanup; only the
`delete_repository` call has an inner `try/except`, and the local-file
loop runs after the big `try`. -/
def cleanup_by_config (f : Faults) (w : World) : Bool × World × CleanupTrace :=
  if ".bedrock_agentcore.yaml" ∉ w.files then (false, w, emptyTrace)
  else
    let agent_name := w.configAgentName
    if f.listFails then (false, w, emptyTrace)
    else
      match w.cloud.runtimes.find? (fun r => r.name == agent_name) with
      | none =>
          (true, { w with files := removeLocalFiles w.files }, ⟨false, false, true, []⟩)
      | some rt =>
          match deleteRuntimeCall f.deleteRuntimeFails w.cloud rt.id with
          | none => (false, w, ⟨true, false, false, []⟩)
          | some cloud1 =>
              if rt.containerUri ≠ "" then
                match (pySplit rt.containerUri '/').get? 1 with
                | none => (false, { w with cloud := cloud1 }, ⟨true, false, false, []⟩)
                | some seg =>
                    let repoName := (pySplit seg ':').headD ""
                    let step2 :=
                      match deleteRepoCall f.deleteRepoFails cloud1 repoName with
                      | some c => (c, ([] : List String))
                      | none => (cloud1, ["Error deleting ECR"])
                    (true, ⟨step2.1, removeLocalFiles w.files, w.configAgentName⟩,
                      ⟨true, true, true, step2.2⟩)
              else
                let repoName := "bedrock-agentcore-" ++ agent_name
                let step2 :=
                  match deleteRepoCall f.deleteRepoFails cloud1 repoName with
                  | some c => (c, ([] : List String))
                  | none => (cloud1, ["Error deleting ECR"])
                (true, ⟨step2.1, removeLocalFiles w.files, w.configAgentName⟩,
                  ⟨true, true, true, step2.2⟩)

/-- What `verify_cleanup()` (`cleanup.py` lines 207–247) reports: every
live agent runtime name, and every ECR repository whose name contains
`'bedrock-agentcore'`. -/
structure VerifyReport where
  runtimeNames : List String
  bedrockRepos : List String
deriving DecidableEq

/-- Model of `verify_cleanup()`.  It only calls the listing APIs, so it returns the
cloud state unchanged alongside the report. -/
def verify_cleanup (c : CloudState) : VerifyReport × CloudState :=
  ({ runtimeNames := c.runtimes.map (fun r => r.name),
     bedrockRepos := c.repos.filter
       (fun r => containsSub "bedrock-agentcore".data r.data) }, c)

/-- A deployed sample world: one runtime named `my_strands_agent` with its
ECR image, and the four local files a deployment leaves behind. -/
def sampleRuntime : RuntimeInfo :=
  ⟨"my_strands_agent", "RT123",
    "123456789012.dkr.ecr.us-east-1.amazonaws.com/bedrock-agentcore-my_strands_agent:latest"⟩

def sampleWorld : World :=
  { cloud := { runtimes := [sampleRuntime], repos := ["bedrock-agentcore-my_strands_agent"] },
    files := {".bedrock_agentcore.yaml", "Dockerfile", ".dockerignore", "agent_config.json"},
    configAgentName := "my_strands_agent" }

/-- Faults making only `delete_agent_runtime` raise. -/
def runtimeDeleteFault : Faults := ⟨false, false, true, false⟩

/-- Faults making only `list_agent_runtimes` raise. -/
def listFault : Faults := ⟨false, true, false, false⟩

/-- Faults making only `delete_repository` raise. -/
def repoDeleteFault : Faults := ⟨false, false, false, true⟩

/-- Faults making both deletion calls raise. -/
def bothDeleteFaults : Faults := ⟨false, false, true, true⟩

/-- A cloud holding one runtime unrelated to any teardown. -/
def strayCloud : CloudState := ⟨[⟨"unrelated_agent", "RTX", ""⟩], ["random-repo"]⟩

/-! Section: helper lemmas. -/

theorem isPre_iff (n h : List Char) : isPre n h = true ↔ ∃ t, h = n ++ t := by
  induction n generalizing h with
  | nil => simp [isPre]
  | cons a as ih =>
    cases h with
    | nil => simp [isPre]
    | cons b bs =>
      simp only [isPre, Bool.and_eq_true, beq_iff_eq, ih, List.cons_append, List.cons.injEq]
      constructor
      · rintro ⟨rfl, t, rfl⟩; exact ⟨t, rfl, rfl⟩
      · rintro ⟨t, rfl, rfl⟩; exact ⟨rfl, t, rfl⟩

theorem containsSub_iff (n h : List Char) :
    containsSub n h = true ↔ ∃ pre post, h = pre ++ n ++ post := by
  induction h with
  | nil =>
    simp only [containsSub, isPre_iff]
    constructor
    · rintro ⟨t, ht⟩
      rcases List.append_eq_nil.mp ht.symm with ⟨rfl, rfl⟩
      exact ⟨[], [], rfl⟩
    · rintro ⟨pre, post, hp⟩
      rcases List.append_eq_nil.mp hp.symm with ⟨h1, rfl⟩
      rcases List.append_eq_nil.mp h1 with ⟨rfl, rfl⟩
      exact ⟨[], rfl⟩
  | cons c rest ih =>
    simp only [containsSub, Bool.or_eq_true, isPre_iff, ih]
    constructor
    · rintro (⟨t, ht⟩ | ⟨pre, post, hp⟩)
      · exact ⟨[], t, by simp [ht]⟩
      · exact ⟨c :: pre, post, by simp [hp]⟩
    · rintro ⟨pre, post, hp⟩
      cases pre with
      | nil => exact Or.inl ⟨post, by simpa using hp⟩
      | cons p ps =>
        simp only [List.cons_append, List.cons.injEq] at hp
        exact Or.inr ⟨ps, post, hp.2⟩

theorem rateOf_eq_none {c : String} (h : c ∉ supportedCurrencies) : rateOf c = none := by
  simp only [supportedCurrencies, rates, List.map, List.mem_cons, List.not_mem_nil, or_false,
    not_or] at h
  obtain ⟨h1, h2, h3, h4⟩ := h
  simp [rateOf, rates, List.lookup, beq_eq_false_iff_ne.mpr h1, beq_eq_false_iff_ne.mpr h2,
    beq_eq_false_iff_ne.mpr h3, beq_eq_false_iff_ne.mpr h4]

theorem convert_currency_unsupported (amount : ℚ) (f t : String)
    (h : f ∉ supportedCurrencies ∨ t ∉ supportedCurrencies) :
    convert_currency amount f t = "Currency not supported. Use USD, SGD, EUR, or JPY" := by
  unfold convert_currency
  rcases h with hf | ht
  · rw [rateOf_eq_none hf]
  · rw [rateOf_eq_none ht]; cases rateOf f <;> rfl

theorem convert_currency_100_USD_SGD :
    convert_currency 100 "USD" "SGD" = "100.0 USD = 135.00 SGD" := by
  show floatRepr 100 ++ " " ++ "USD" ++ " = " ++
      formatFixed2 (100 / 1 * (27/20)) ++ " " ++ "SGD" = "100.0 USD = 135.00 SGD"
  rw [show (100:ℚ) / 1 * (27/20) = 135 by norm_num]
  rw [show floatRepr 100 = "100.0" by unfold floatRepr; norm_num; decide]
  rw [show formatFixed2 135 = "135.00" by
    unfold formatFixed2 roundHalfEven ratFloor; norm_num; decide]
  decide

theorem foldl_streamStep (lines : List String) :
    ∀ acc : List String,
      lines.foldl streamStep acc =
        acc ++ (lines.filter
          (fun l => !(l == "") && isPre "data: ".data l.data)).map (fun l => l.drop 6) := by
  induction lines with
  | nil => intro acc; simp
  | cons l ls ih =>
    intro acc
    simp only [List.foldl_cons, List.filter_cons]
    by_cases he : l = ""
    · subst he
      simp [streamStep, ih]
    · by_cases hp : isPre "data: ".data l.data = true
      · simp [streamStep, he, hp, ih, List.append_assoc]
      · simp [streamStep, he, Bool.eq_false_iff.mpr hp, ih]

theorem pollStatusAux_sound (provider : ℕ → String) :
    ∀ (fuel i : ℕ) (s : String) (n : ℕ),
      pollStatusAux provider fuel i (provider i) = some (s, n) →
      s = provider n ∧ s ∈ end_status ∧ i ≤ n ∧
        ∀ k, i ≤ k → k < n → provider k ∉ end_status := by
  intro fuel
  induction fuel with
  | zero =>
    intro i s n h
    unfold pollStatusAux at h
    by_cases hm : provider i ∈ end_status
    · rw [if_pos hm] at h
      injection h with h'
      have hs : provider i = s := congrArg Prod.fst h'
      have hn : i = n := congrArg Prod.snd h'
      subst hs; subst hn
      exact ⟨rfl, hm, Nat.le_refl i,
        fun k hk1 hk2 => absurd (Nat.lt_of_le_of_lt hk1 hk2) (Nat.lt_irrefl i)⟩
    · rw [if_neg hm] at h
      exact Option.noConfusion h
  | succ f ih =>
    intro i s n h
    unfold pollStatusAux at h
    by_cases hm : provider i ∈ end_status
    · rw [if_pos hm] at h
      injection h with h'
      have hs : provider i = s := congrArg Prod.fst h'
      have hn : i = n := congrArg Prod.snd h'
      subst hs; subst hn
      exact ⟨rfl, hm, Nat.le_refl i,
        fun k hk1 hk2 => absurd (Nat.lt_of_le_of_lt hk1 hk2) (Nat.lt_irrefl i)⟩
    · rw [if_neg hm] at h
      obtain ⟨h1, h2, h3, h4⟩ := ih (i + 1) s n h
      refine ⟨h1, h2, Nat.le_of_succ_le h3, fun k hk1 hk2 => ?_⟩
      rcases Nat.lt_or_ge k (i + 1) with hk | hk
      · have hki : k = i := Nat.le_antisymm (Nat.lt_succ_iff.mp hk) hk1
        rw [hki]; exact hm
      · exact h4 k hk hk2

theorem pollStatus_sound (provider : ℕ → String) (fuel : ℕ) (s : String) (n : ℕ)
    (h : pollStatus provider fuel = some (s, n)) :
    s = provider n ∧ s ∈ end_status ∧ ∀ k, k < n → provider k ∉ end_status := by
  obtain ⟨h1, h2, _, h4⟩ := pollStatusAux_sound provider fuel 0 s n h
  exact ⟨h1, h2, fun k hk => h4 k (Nat.zero_le k) hk⟩

theorem pollStatusAux_step (p : ℕ → String) (f i : ℕ) (st : String) (h : st ∉ end_status) :
    pollStatusAux p (f + 1) i st = pollStatusAux p f (i + 1) (p (i + 1)) := by
  conv_lhs => unfold pollStatusAux
  rw [if_neg h]

theorem pollStatusAux_term (p : ℕ → String) (f i : ℕ) (st : String) (h : st ∈ end_status) :
    pollStatusAux p f i st = some (st, i) := by
  conv_lhs => unfold pollStatusAux
  rw [if_pos h]

theorem pollStatus_fakeProvider (fuel : ℕ) :
    pollStatus fakeProvider (fuel + 2) = some ("READY", 2) := by
  show pollStatusAux fakeProvider (fuel + 1 + 1) 0 (fakeProvider 0) = some ("READY", 2)
  rw [pollStatusAux_step fakeProvider (fuel + 1) 0 (fakeProvider 0) (by decide)]
  show pollStatusAux fakeProvider (fuel + 1) 1 (fakeProvider 1) = some ("READY", 2)
  rw [pollStatusAux_step fakeProvider fuel 1 (fakeProvider 1) (by decide)]
  show pollStatusAux fakeProvider fuel 2 "READY" = some ("READY", 2)
  rw [pollStatusAux_term fakeProvider fuel 2 "READY" (by decide)]

theorem pollStatusAux_creating :
    ∀ fuel i, pollStatusAux (fun _ => "CREATING") fuel i "CREATING" = none := by
  intro fuel
  induction fuel with
  | zero => intro i; rfl
  | succ f ih => intro i; exact ih (i + 1)

/-- Claim C1: `convert_currency` turns 100 USD into 135.00 SGD (reported in
the returned text formatted to two decimal places), and for any input whose
source or target currency is not one of USD, SGD, EUR, JPY it returns the
fixed "Currency not supported" string instead of raising. -/
theorem claim_C1_convert_currency :
    convert_currency 100 "USD" "SGD" = "100.0 USD = 135.00 SGD" ∧
    ∀ (amount : ℚ) (f t : String),
      f ∉ supportedCurrencies ∨ t ∉ supportedCurrencies →
      convert_currency amount f t = "Currency not supported. Use USD, SGD, EUR, or JPY" :=
  ⟨convert_currency_100_USD_SGD, fun amount f t h => convert_currency_unsupported amount f t h⟩

theorem claim_C1_convert_currency_witness :
    ("GBP" ∉ supportedCurrencies ∨ "SGD" ∉ supportedCurrencies) ∧
    convert_currency 5 "GBP" "SGD" = "Currency not supported. Use USD, SGD, EUR, or JPY" :=
  ⟨Or.inl (by decide), claim_C1_convert_currency.2 5 "GBP" "SGD" (Or.inl (by decide))⟩

/-- Claim C2: the streamed-response decoder, fed the chunks
`"data: Hello"` and `"data: World"`, strips the `"data: "` marker from
each, keeps arrival order and joins with a newline, yielding exactly
`"Hello\nWorld"`. -/
theorem claim_C2_stream_decode :
    streamContent ["data: Hello", "data: World"] = ["Hello", "World"] ∧
    decodeStreamed ["data: Hello", "data: World"] = "Hello\nWorld" :=
  ⟨by decide, by decide⟩

/-- Claim C9: a chunk contributes to the decoded stream iff it is
non-empty and starts with `"data: "`; all other lines are discarded.  The
accumulated content is exactly the marker-stripped sublist of the lines
satisfying that condition, in order. -/
theorem claim_C9_stream_filter (lines : List String) :
    streamContent lines =
      (lines.filter (fun l => !(l == "") && isPre "data: ".data l.data)).map
        (fun l => l.drop 6) := by
  simpa using foldl_streamStep lines []

/-- Claim C3: the polling loop returns as soon as the observed status is in
`end_status` (the returned status is provider-reported, terminal, and all
earlier observations were non-terminal), and against a provider reporting
CREATING, CREATING, READY it stops after exactly 2 sleep-and-requery
cycles with final status READY (for any remaining fuel). -/
theorem claim_C3_poll_terminates :
    (∀ (provider : ℕ → String) (fuel : ℕ) (s : String) (n : ℕ),
        pollStatus provider fuel = some (s, n) →
        s = provider n ∧ s ∈ end_status ∧ ∀ k, k < n → provider k ∉ end_status) ∧
    ∀ fuel, pollStatus fakeProvider (fuel + 2) = some ("READY", 2) :=
  ⟨pollStatus_sound, pollStatus_fakeProvider⟩

theorem claim_C3_poll_terminates_witness :
    pollStatus fakeProvider 2 = some ("READY", 2) ∧ "READY" ∈ end_status :=
  ⟨claim_C3_poll_terminates.2 0,
    (claim_C3_poll_terminates.1 fakeProvider 2 "READY" 2 (claim_C3_poll_terminates.2 0)).2.1⟩

/-- Claim C4 is false of the code: the polling loop has no timeout at all.
Against a provider that never reports a terminal status, the loop never
returns for any amount of fuel — there is no `ProvisioningTimeout`
outcome, the loop simply runs forever. -/
theorem claim_C4_counterexample :
    ¬ ∃ (fuel : ℕ) (s : String) (n : ℕ),
        pollStatus (fun _ => "CREATING") fuel = some (s, n) := by
  rintro ⟨fuel, s, n, h⟩
  rw [show pollStatus (fun _ => "CREATING") fuel = none from pollStatusAux_creating fuel 0] at h
  exact Option.noConfusion h

/-- Claim C4, amended: the polling loop takes no timeout; on a provider
that stays non-terminal it never returns (it does not force a terminal
status), and whenever it does return, the status is the provider-reported
terminal one. -/
theorem claim_C4_no_timeout :
    (∀ fuel, pollStatus (fun _ => "CREATING") fuel = none) ∧
    ∀ (provider : ℕ → String) (fuel : ℕ) (s : String) (n : ℕ),
      pollStatus provider fuel = some (s, n) → s = provider n ∧ s ∈ end_status :=
  ⟨fun fuel => pollStatusAux_creating fuel 0,
    fun provider fuel s n h =>
      ⟨(pollStatus_sound provider fuel s n h).1, (pollStatus_sound provider fuel s n h).2.1⟩⟩

theorem claim_C4_no_timeout_witness :
    pollStatus fakeProvider 2 = some ("READY", 2) ∧
    ("READY" = fakeProvider 2 ∧ "READY" ∈ end_status) :=
  ⟨pollStatus_fakeProvider 0,
    claim_C4_no_timeout.2 fakeProvider 2 "READY" 2 (pollStatus_fakeProvider 0)⟩

theorem deleteRuntimeCall_fault (c : CloudState) (id : String) :
    deleteRuntimeCall true c id = none := by
  unfold deleteRuntimeCall
  simp

theorem deleteRepoCall_fault (c : CloudState) (repo : String) :
    deleteRepoCall true c repo = none := by
  unfold deleteRepoCall
  simp

theorem cleanup_from_launch_result_attempts_all (f : Faults) (lr : LaunchResult) (w : World)
    (h1 : f.launchFails = false) (h2 : (pySplit lr.ecr_uri '/').get? 1 ≠ none) :
    (cleanup_from_launch_result f lr w).1 = true ∧
    (cleanup_from_launch_result f lr w).2.2.runtimeDeleteAttempted = true ∧
    (cleanup_from_launch_result f lr w).2.2.repoDeleteAttempted = true ∧
    (cleanup_from_launch_result f lr w).2.2.filesStepRun = true ∧
    (f.deleteRuntimeFails = true →
      "Error deleting runtime" ∈ (cleanup_from_launch_result f lr w).2.2.warnings) ∧
    (f.deleteRepoFails = true →
      "Error deleting ECR repository" ∈ (cleanup_from_launch_result f lr w).2.2.warnings) := by
  rcases hopt : (pySplit lr.ecr_uri '/').get? 1 with _ | repoName
  · exact absurd hopt h2
  · unfold cleanup_from_launch_result
    rw [h1, hopt]
    refine ⟨rfl, rfl, rfl, rfl, fun h5 => ?_, fun h6 => ?_⟩
    · simp [h5, deleteRuntimeCall_fault]
    · simp [h6, deleteRepoCall_fault]

theorem cleanup_by_config_repo_error_nonfatal (f : Faults) (w : World) (rt : RuntimeInfo)
    (seg : String)
    (h1 : ".bedrock_agentcore.yaml" ∈ w.files) (h2 : f.listFails = false)
    (h3 : w.cloud.runtimes.find? (fun r => r.name == w.configAgentName) = some rt)
    (h4 : f.deleteRuntimeFails = false) (h6 : rt.containerUri ≠ "")
    (h7 : (pySplit rt.containerUri '/').get? 1 = some seg) :
    (cleanup_by_config f w).1 = true ∧
    (cleanup_by_config f w).2.2.repoDeleteAttempted = true ∧
    (cleanup_by_config f w).2.2.filesStepRun = true ∧
    (f.deleteRepoFails = true →
      (cleanup_by_config f w).2.2.warnings = ["Error deleting ECR"]) := by
  have hmem : rt ∈ w.cloud.runtimes := List.mem_of_find?_eq_some h3
  have hany : w.cloud.runtimes.any (fun r => r.id == rt.id) = true :=
    List.any_eq_true.mpr ⟨rt, hmem, by simp⟩
  have hd : deleteRuntimeCall f.deleteRuntimeFails w.cloud rt.id =
      some { w.cloud with
        runtimes := w.cloud.runtimes.filter (fun r => !(r.id == rt.id)) } := by
    unfold deleteRuntimeCall
    rw [h4]
    simp only [Bool.false_eq_true, if_false]
    rw [if_pos hany]
  unfold cleanup_by_config
  simp only [if_neg (not_not_intro h1), h2, Bool.false_eq_true, if_false, h3, hd,
    if_pos h6, h7]
  refine ⟨trivial, trivial, trivial, fun h8 => ?_⟩
  simp [h8, deleteRepoCall_fault]

theorem cleanup_by_config_list_error_aborts (f : Faults) (w : World)
    (h1 : ".bedrock_agentcore.yaml" ∈ w.files) (h2 : f.listFails = true) :
    cleanup_by_config f w = (false, w, emptyTrace) := by
  unfold cleanup_by_config
  simp only [if_neg (not_not_intro h1), h2, if_true]

theorem cleanup_by_config_runtime_error_aborts (f : Faults) (w : World) (rt : RuntimeInfo)
    (h1 : ".bedrock_agentcore.yaml" ∈ w.files) (h2 : f.listFails = false)
    (h3 : w.cloud.runtimes.find? (fun r => r.name == w.configAgentName) = some rt)
    (h4 : f.deleteRuntimeFails = true) :
    cleanup_by_config f w = (false, w, ⟨true, false, false, []⟩) := by
  have hd : deleteRuntimeCall f.deleteRuntimeFails w.cloud rt.id = none := by
    unfold deleteRuntimeCall
    rw [h4]
    simp
  unfold cleanup_by_config
  simp only [if_neg (not_not_intro h1), h2, Bool.false_eq_true, if_false, h3, hd]

theorem removeLocalFiles_eq (fs : Finset String) :
    removeLocalFiles fs = fs.filter (fun f => f ∉ local_files) := by
  have hstep : ∀ (acc : Finset String) (f : String),
      (if f ∈ acc then acc.erase f else acc) = acc.erase f := by
    intro acc f
    split
    · rfl
    · exact (Finset.erase_eq_of_not_mem (by assumption)).symm
  simp only [removeLocalFiles, local_files, List.foldl_cons, List.foldl_nil, hstep]
  ext x
  simp only [Finset.mem_erase, Finset.mem_filter, local_files, List.mem_cons,
    List.not_mem_nil, or_false, not_or]
  tauto

/-- Claim C5 is false of the code: in `cleanup_by_config`, an exception
raised by `delete_agent_runtime` propagates to the big `try`'s handler,
which returns `False` — the repository-deletion and local-file steps are
skipped, not attempted. -/
theorem claim_C5_counterexample :
    (cleanup_by_config runtimeDeleteFault sampleWorld).2.2.runtimeDeleteAttempted = true ∧
    (cleanup_by_config runtimeDeleteFault sampleWorld).2.2.repoDeleteAttempted = false ∧
    (cleanup_by_config runtimeDeleteFault sampleWorld).2.2.filesStepRun = false ∧
    (cleanup_by_config runtimeDeleteFault sampleWorld).1 = false := by decide

/-- Claim C5, amended: in `cleanup_from_launch_result`, once deployment
info is available, every deletion step (runtime, image repository, local
files) is attempted regardless of earlier step errors, and a failing
runtime- or repository-deletion step records its error as a non-fatal
warning.  In `cleanup_by_config`, only the repository-deletion step is
best-effort — its error is recorded as a warning while the run still
succeeds and cleans the local files — whereas an exception from listing
the runtimes or from deleting the runtime is caught by the enclosing
`try`, which returns `False` and skips the repository-deletion and
local-file steps. -/
theorem claim_C5_best_effort :
    (∀ (f : Faults) (lr : LaunchResult) (w : World),
        f.launchFails = false → (pySplit lr.ecr_uri '/').get? 1 ≠ none →
        (cleanup_from_launch_result f lr w).1 = true ∧
        (cleanup_from_launch_result f lr w).2.2.runtimeDeleteAttempted = true ∧
        (cleanup_from_launch_result f lr w).2.2.repoDeleteAttempted = true ∧
        (cleanup_from_launch_result f lr w).2.2.filesStepRun = true ∧
        (f.deleteRuntimeFails = true →
          "Error deleting runtime" ∈ (cleanup_from_launch_result f lr w).2.2.warnings) ∧
        (f.deleteRepoFails = true →
          "Error deleting ECR repository" ∈
            (cleanup_from_launch_result f lr w).2.2.warnings)) ∧
    (∀ (f : Faults) (w : World) (rt : RuntimeInfo) (seg : String),
        ".bedrock_agentcore.yaml" ∈ w.files → f.listFails = false →
        w.cloud.runtimes.find? (fun r => r.name == w.configAgentName) = some rt →
        f.deleteRuntimeFails = false → rt.containerUri ≠ "" →
        (pySplit rt.containerUri '/').get? 1 = some seg →
        (cleanup_by_config f w).1 = true ∧
        (cleanup_by_config f w).2.2.repoDeleteAttempted = true ∧
        (cleanup_by_config f w).2.2.filesStepRun = true ∧
        (f.deleteRepoFails = true →
          (cleanup_by_config f w).2.2.warnings = ["Error deleting ECR"])) ∧
    (∀ (f : Faults) (w : World),
        ".bedrock_agentcore.yaml" ∈ w.files → f.listFails = true →
        cleanup_by_config f w = (false, w, emptyTrace)) ∧
    (∀ (f : Faults) (w : World) (rt : RuntimeInfo),
        ".bedrock_agentcore.yaml" ∈ w.files → f.listFails = false →
        w.cloud.runtimes.find? (fun r => r.name == w.configAgentName) = some rt →
        f.deleteRuntimeFails = true →
        cleanup_by_config f w = (false, w, ⟨true, false, false, []⟩)) :=
  ⟨cleanup_from_launch_result_attempts_all,
    cleanup_by_config_repo_error_nonfatal,
    cleanup_by_config_list_error_aborts,
    cleanup_by_config_runtime_error_aborts⟩

theorem claim_C5_best_effort_witness :
    (bothDeleteFaults.launchFails = false ∧
      (pySplit "host/bedrock-agentcore-x:latest" '/').get? 1 ≠ none ∧
      bothDeleteFaults.deleteRuntimeFails = true ∧
      "Error deleting runtime" ∈
        (cleanup_from_launch_result bothDeleteFaults
          ⟨"host/bedrock-agentcore-x:latest", "RT123"⟩ sampleWorld).2.2.warnings) ∧
    (".bedrock_agentcore.yaml" ∈ sampleWorld.files ∧
      repoDeleteFault.listFails = false ∧
      sampleWorld.cloud.runtimes.find?
        (fun r => r.name == sampleWorld.configAgentName) = some sampleRuntime ∧
      repoDeleteFault.deleteRuntimeFails = false ∧
      sampleRuntime.containerUri ≠ "" ∧
      (pySplit sampleRuntime.containerUri '/').get? 1 =
        some "bedrock-agentcore-my_strands_agent:latest" ∧
      repoDeleteFault.deleteRepoFails = true ∧
      (cleanup_by_config repoDeleteFault sampleWorld).2.2.warnings =
        ["Error deleting ECR"]) ∧
    (".bedrock_agentcore.yaml" ∈ sampleWorld.files ∧
      listFault.listFails = true ∧
      cleanup_by_config listFault sampleWorld = (false, sampleWorld, emptyTrace)) ∧
    (runtimeDeleteFault.deleteRuntimeFails = true ∧
      cleanup_by_config runtimeDeleteFault sampleWorld =
        (false, sampleWorld, ⟨true, false, false, []⟩)) :=
  ⟨⟨by decide, by decide, by decide,
      (claim_C5_best_effort.1 bothDeleteFaults
        ⟨"host/bedrock-agentcore-x:latest", "RT123"⟩ sampleWorld
        (by decide) (by decide)).2.2.2.2.1 (by decide)⟩,
    ⟨by decide, by decide, by decide, by decide, by decide, by decide, by decide,
      (claim_C5_best_effort.2.1 repoDeleteFault sampleWorld sampleRuntime
        "bedrock-agentcore-my_strands_agent:latest" (by decide) (by decide) (by decide)
        (by decide) (by decide) (by decide)).2.2.2 (by decide)⟩,
    ⟨by decide, by decide,
      claim_C5_best_effort.2.2.1 listFault sampleWorld (by decide) (by decide)⟩,
    ⟨by decide,
      claim_C5_best_effort.2.2.2 runtimeDeleteFault sampleWorld sampleRuntime
        (by decide) (by decide) (by decide) (by decide)⟩⟩

/-- Claim C6 is false of the code: the first teardown succeeds, but the
second — the first having deleted `.bedrock_agentcore.yaml` — returns
`False` ("Nothing to clean up") rather than reporting success. -/
theorem claim_C6_counterexample :
    (cleanup_by_config noFaults sampleWorld).1 = true ∧
    (cleanup_by_config noFaults (cleanup_by_config noFaults sampleWorld).2.1).1 = false := by
  decide

/-- Claim C6, amended: the first teardown succeeds with no warnings; the
second call raises nothing and performs no deletion step, but it reports
failure (`False`, nothing to clean up) rather than success, leaving the
world unchanged. -/
theorem claim_C6_second_run :
    (cleanup_by_config noFaults sampleWorld).1 = true ∧
    (cleanup_by_config noFaults sampleWorld).2.2.warnings = [] ∧
    cleanup_by_config noFaults (cleanup_by_config noFaults sampleWorld).2.1 =
      (false, (cleanup_by_config noFaults sampleWorld).2.1, emptyTrace) := by
  decide

/-- Claim C7: the response mode is streamed iff the content type contains
`"text/event-stream"` as a substring (buffered otherwise), and the
buffered decoder reports an explicit empty response on an empty payload,
falls back to the plain decoded text when JSON parsing fails, and returns
the parsed value when it succeeds. -/
theorem claim_C7_response_decoding :
    (∀ ct : Option String, isStreamedResponse ct = true ↔
        ∃ pre post, (contentTypeOf ct).data = pre ++ "text/event-stream".data ++ post) ∧
    (∀ (α : Type) (jsonParse : String → Option α),
        decodeBufferedResponse jsonParse "" = BufferedReport.emptyResponse) ∧
    (∀ (α : Type) (jsonParse : String → Option α) (p : String),
        p ≠ "" → jsonParse p = none →
        decodeBufferedResponse jsonParse p = BufferedReport.plainText p) ∧
    (∀ (α : Type) (jsonParse : String → Option α) (p : String) (v : α),
        p ≠ "" → jsonParse p = some v →
        decodeBufferedResponse jsonParse p = BufferedReport.parsedJson v) := by
  refine ⟨fun ct => containsSub_iff "text/event-stream".data (contentTypeOf ct).data,
    fun α jsonParse => by simp [decodeBufferedResponse],
    fun α jsonParse p hp hj => ?_, fun α jsonParse p v hp hj => ?_⟩
  · unfold decodeBufferedResponse
    rw [if_pos hp, hj]
  · unfold decodeBufferedResponse
    rw [if_pos hp, hj]

theorem claim_C7_response_decoding_witness :
    (("hi" : String) ≠ "" ∧ (fun _ => (none : Option ℕ)) "hi" = none) ∧
    decodeBufferedResponse (fun _ => (none : Option ℕ)) "hi" = BufferedReport.plainText "hi" :=
  ⟨⟨by decide, rfl⟩,
    claim_C7_response_decoding.2.2.1 ℕ (fun _ => none) "hi" (by decide) rfl⟩

/-- Claim C8 is false of the code: `verify_cleanup` reports every live
agent runtime, not only those matching the deleted logical name or
containing the `bedrock-agentcore` prefix — a runtime named
`unrelated_agent` is flagged although it matches neither condition. -/
theorem claim_C8_counterexample :
    (verify_cleanup strayCloud).1.runtimeNames = ["unrelated_agent"] ∧
    ¬ ("unrelated_agent" = "my_strands_agent" ∨
        containsSub "bedrock-agentcore".data "unrelated_agent".data = true) := by decide

/-- Claim C8, amended: the verification pass performs no deletion (the
cloud state is returned unchanged), lists every live compute resource
regardless of name, flags exactly the image repositories whose name
contains `"bedrock-agentcore"`, and after a full teardown of the sample
deployment it reports zero live resources. -/
theorem claim_C8_verify :
    (∀ c : CloudState, (verify_cleanup c).2 = c) ∧
    (∀ c : CloudState,
        (verify_cleanup c).1.runtimeNames = c.runtimes.map (fun r => r.name)) ∧
    (∀ (c : CloudState) (r : String),
        r ∈ (verify_cleanup c).1.bedrockRepos ↔
          r ∈ c.repos ∧ ∃ pre post, r.data = pre ++ "bedrock-agentcore".data ++ post) ∧
    (verify_cleanup (cleanup_by_config noFaults sampleWorld).2.1.cloud).1 = ⟨[], []⟩ := by
  refine ⟨fun c => rfl, fun c => rfl, fun c r => ?_, by decide⟩
  simp only [verify_cleanup, List.mem_filter]
  rw [containsSub_iff]

/-- Claim C10: the local-file step of teardown removes exactly the files
in the fixed `local_files` list that are present; any file outside the
list is untouched, and a listed-but-absent file is skipped rather than an
error (the step is total). -/
theorem claim_C10_local_files_frame :
    (∀ fs : Finset String, removeLocalFiles fs = fs.filter (fun f => f ∉ local_files)) ∧
    ∀ (fs : Finset String) (f : String), f ∉ local_files →
      (f ∈ removeLocalFiles fs ↔ f ∈ fs) :=
  ⟨removeLocalFiles_eq, fun fs f h => by
    rw [removeLocalFiles_eq]
    simp [Finset.mem_filter, h]⟩

theorem claim_C10_local_files_frame_witness :
    ("agent.py" ∉ local_files) ∧
    ("agent.py" ∈ removeLocalFiles ({"agent.py", "Dockerfile"} : Finset String) ↔
      "agent.py" ∈ ({"agent.py", "Dockerfile"} : Finset String)) :=
  ⟨by decide,
    claim_C10_local_files_frame.2 {"agent.py", "Dockerfile"} "agent.py" (by decide)⟩
